import Mathlib

/-!
Verification of the Skills Arena reputation and ranking engine.

This file gives a shallow embedding of the parts of the repository that the
spec is about:

* `scripts/vote_system.py` — the vote state machine (`VoteSystem.vote` and its
  helpers `_new_vote`, `_change_vote`, `_cancel_vote`, `get_votes`), modelled
  over an explicit database state (`VoteDB`).
* `api/v2_server.py` — the `submit_review` handler with its usage gate, trust
  weight table (`calculate_review_weight`), burst detection and weighted
  rating aggregation, modelled over an explicit file store (`Store`) in which
  file names are lists of characters and glob patterns with a single star are
  interpreted literally.
* `scripts/feed_algorithm.py` — `FeedAlgorithm.calculate_hot_score`, modelled
  over the real numbers, with Python rounding modelled as decimal
  round-half-to-even.
-/

/-! ## Vote system (scripts/vote_system.py) -/

/-- One row of counters of a votable target (columns `upvotes`, `downvotes`,
`vote_score` of the `skills` / `comments` tables). -/
structure Counters where
  upvotes : ℤ
  downvotes : ℤ
  vote_score : ℤ
deriving DecidableEq, Repr

/-- The dict returned by `VoteSystem.vote`. -/
structure VoteResult where
  success : Bool
  message : String
  upvotes : ℤ
  downvotes : ℤ
  vote_score : ℤ
deriving DecidableEq, Repr

/-- One row of the `votes` table. -/
structure VoteRow where
  agent_id : String
  target_type : String
  target_id : String
  vote_type : String
deriving DecidableEq, Repr

/-- The database state seen by `VoteSystem`: the `agents` table as
(did, agent_id) rows, the `votes` ledger, and the counter columns of the
`skills` and `comments` tables keyed by id. -/
structure VoteDB where
  agents : List (String × String)
  votes : List VoteRow
  skills : List (String × Counters)
  comments : List (String × Counters)
deriving DecidableEq, Repr

/-- `WHERE agent_id = $1 AND target_type = $2 AND target_id = $3`. -/
def voteKeyMatches (r : VoteRow) (aid tt tid : String) : Bool :=
  r.agent_id == aid && r.target_type == tt && r.target_id == tid

/-- `SELECT vote_type FROM votes WHERE ...` (`fetchrow` returns the first
matching row or `None`). -/
def fetchExistingVote (db : VoteDB) (aid tt tid : String) : Option VoteRow :=
  db.votes.find? (fun r => voteKeyMatches r aid tt tid)

/-- The table targeted by a vote: `skills` if `target_type == 'skill'`,
else `comments` (as in the source's `if/else`). -/
def targetRows (db : VoteDB) (tt : String) : List (String × Counters) :=
  if tt = "skill" then db.skills else db.comments

/-- Write back the targeted table. -/
def setTargetRows (db : VoteDB) (tt : String) (rows : List (String × Counters)) : VoteDB :=
  if tt = "skill" then { db with skills := rows } else { db with comments := rows }

/-- `UPDATE {table} SET upvotes = upvotes + du, downvotes = downvotes + dd,
vote_score = vote_score + ds WHERE {id_column} = tid` (a column absent from a
given SQL statement corresponds to a zero delta). -/
def updateCounters (rows : List (String × Counters)) (tid : String) (du dd ds : ℤ) :
    List (String × Counters) :=
  rows.map fun p =>
    if p.1 == tid then
      (p.1, ⟨p.2.upvotes + du, p.2.downvotes + dd, p.2.vote_score + ds⟩)
    else p

/-- Apply a counter update to the targeted table. -/
def updTarget (db : VoteDB) (tt tid : String) (du dd ds : ℤ) : VoteDB :=
  setTargetRows db tt (updateCounters (targetRows db tt) tid du dd ds)

/-- `VoteSystem.get_votes`: read the counters of a target, or zeros when the
row does not exist. -/
def get_votes (db : VoteDB) (tt tid : String) : Counters :=
  match (targetRows db tt).find? (fun p => p.1 == tid) with
  | some p => p.2
  | none => ⟨0, 0, 0⟩

/-- Build the result dict `{success, message, **stats}`. -/
def mkResult (success : Bool) (msg : String) (c : Counters) : VoteResult :=
  ⟨success, msg, c.upvotes, c.downvotes, c.vote_score⟩

/-- `INSERT INTO votes (agent_id, target_type, target_id, vote_type)
VALUES (...)`. -/
def dbInsertVote (db : VoteDB) (aid tt tid vt : String) : VoteDB :=
  { db with votes := db.votes ++ [⟨aid, tt, tid, vt⟩] }

/-- `UPDATE votes SET vote_type = $1 WHERE agent_id = ... AND ...`
(the `updated_at` column is not modelled). -/
def dbUpdateVote (db : VoteDB) (aid tt tid nvt : String) : VoteDB :=
  { db with votes := db.votes.map fun r =>
      if voteKeyMatches r aid tt tid then { r with vote_type := nvt } else r }

/-- `DELETE FROM votes WHERE agent_id = ... AND ...`. -/
def dbDeleteVote (db : VoteDB) (aid tt tid : String) : VoteDB :=
  { db with votes := db.votes.filter fun r => !(voteKeyMatches r aid tt tid) }

/-- `VoteSystem._new_vote`: insert the ledger row, bump the counters of the
target, and report the fresh stats. -/
def new_vote (db : VoteDB) (tt tid aid vt : String) : VoteDB × VoteResult :=
  let db1 := dbInsertVote db aid tt tid vt
  let db2 :=
    if vt = "upvote" then updTarget db1 tt tid 1 0 1
    else updTarget db1 tt tid 0 1 (-1)
  (db2, mkResult true ("Successfully " ++ vt ++ "d") (get_votes db2 tt tid))

/-- `VoteSystem._change_vote`: no-op when the vote type is unchanged,
otherwise rewrite the ledger row and move the counters. -/
def change_vote (db : VoteDB) (existing : VoteRow) (tt tid aid nvt : String) :
    VoteDB × VoteResult :=
  let ovt := existing.vote_type
  if ovt = nvt then
    (db, mkResult true ("Already " ++ nvt ++ "d") (get_votes db tt tid))
  else
    let db1 := dbUpdateVote db aid tt tid nvt
    let db2 :=
      if ovt = "upvote" && nvt = "downvote" then updTarget db1 tt tid (-1) 1 (-2)
      else updTarget db1 tt tid 1 (-1) 2
    (db2, mkResult true ("Changed from " ++ ovt ++ " to " ++ nvt) (get_votes db2 tt tid))

/-- `VoteSystem._cancel_vote`: no-op when there is no vote, otherwise delete
the ledger row and roll the counters back. -/
def cancel_vote (db : VoteDB) (existing : Option VoteRow) (tt tid aid : String) :
    VoteDB × VoteResult :=
  match existing with
  | none => (db, mkResult true "No vote to cancel" (get_votes db tt tid))
  | some ex =>
    let db1 := dbDeleteVote db aid tt tid
    let db2 :=
      if ex.vote_type = "upvote" then updTarget db1 tt tid (-1) 0 (-1)
      else updTarget db1 tt tid 0 (-1) 1
    (db2, mkResult true "Vote cancelled" (get_votes db2 tt tid))

/-- The dispatch at the end of `VoteSystem.vote`: cancellation first, then
change versus new vote depending on the existing ledger row. -/
def voteDispatch (db : VoteDB) (aid tt tid vt : String) : VoteDB × VoteResult :=
  let existing := fetchExistingVote db aid tt tid
  if vt = "cancel" then cancel_vote db existing tt tid aid
  else
    match existing with
    | some ex => change_vote db ex tt tid aid vt
    | none => new_vote db tt tid aid vt

/-- `VoteSystem.vote`: validation (a `ValueError` becomes `Except.error`),
identity resolution with its soft failure (an empty `agent_id` is falsy in
Python and also soft-fails), then the dispatch on the existing vote.
The text of the two validation messages is kept without the quoted literals. -/
def vote (db : VoteDB) (tt tid did vt : String) : Except String (VoteDB × VoteResult) :=
  if !(tt == "skill" || tt == "comment") then
    .error ("Invalid target_type: " ++ tt)
  else if !(vt == "upvote" || vt == "downvote" || vt == "cancel") then
    .error ("Invalid vote_type: " ++ vt)
  else
    match (db.agents.find? fun p => p.1 == did).map (·.2) with
    | none => .ok (db, mkResult false "Agent not found" ⟨0, 0, 0⟩)
    | some aid =>
      if aid = "" then .ok (db, mkResult false "Agent not found" ⟨0, 0, 0⟩)
      else .ok (voteDispatch db aid tt tid vt)

deriving instance DecidableEq for Except

/-- Counters of a target as an optional row (read-only view used in the
statements). -/
def lookupTarget (db : VoteDB) (tt tid : String) : Option Counters :=
  ((targetRows db tt).find? (fun p => p.1 == tid)).map (·.2)

/-- The database state after a vote, keeping the old state on a raised
`ValueError` (the exception aborts the transaction before any write). -/
def voteStep (db : VoteDB) (tt tid did vt : String) : VoteDB :=
  match vote db tt tid did vt with
  | .ok (db', _) => db'
  | .error _ => db

example :
    vote ⟨[("d1", "a1")], [], [("s1", ⟨0, 0, 0⟩)], []⟩ "skill" "s1" "d1" "upvote" =
      .ok (⟨[("d1", "a1")], [⟨"a1", "skill", "s1", "upvote"⟩], [("s1", ⟨1, 0, 1⟩)], []⟩,
        ⟨true, "Successfully upvoted", 1, 0, 1⟩) := by decide

/-! ## Spec-side vote state machine (spec section 4.2)

The following definitions transcribe the spec's nine-row transition table;
they are compared with the embedded code in the claim theorems. -/

/-- Vote state of an (identity, target) pair, as in the spec. -/
inductive SpecVoteState
  | noVote
  | upvoted
  | downvoted
deriving DecidableEq, Repr

/-- The spec's counter delta `(upvotes, downvotes, score)` for each of the
nine table rows. -/
def specDelta : SpecVoteState → String → ℤ × ℤ × ℤ
  | .noVote, "upvote" => (1, 0, 1)
  | .noVote, "downvote" => (0, 1, -1)
  | .upvoted, "upvote" => (0, 0, 0)
  | .downvoted, "downvote" => (0, 0, 0)
  | .upvoted, "downvote" => (-1, 1, -2)
  | .downvoted, "upvote" => (1, -1, 2)
  | .upvoted, "cancel" => (-1, 0, -1)
  | .downvoted, "cancel" => (0, -1, 1)
  | .noVote, "cancel" => (0, 0, 0)
  | _, _ => (0, 0, 0)

/-- The spec's target state for each of the nine table rows. -/
def specNext : SpecVoteState → String → SpecVoteState
  | .noVote, "upvote" => .upvoted
  | .noVote, "downvote" => .downvoted
  | .upvoted, "upvote" => .upvoted
  | .downvoted, "downvote" => .downvoted
  | .upvoted, "downvote" => .downvoted
  | .downvoted, "upvote" => .upvoted
  | .upvoted, "cancel" => .noVote
  | .downvoted, "cancel" => .noVote
  | .noVote, "cancel" => .noVote
  | s, _ => s

/-- Read the abstract vote state of an (identity, target) pair off the
ledger. -/
def ledgerState (db : VoteDB) (aid tt tid : String) : SpecVoteState :=
  match fetchExistingVote db aid tt tid with
  | none => .noVote
  | some r =>
    if r.vote_type = "upvote" then .upvoted
    else if r.vote_type = "downvote" then .downvoted
    else .noVote

/-- Shift counters by a delta (the effect of one SQL counter update). -/
def bumpC (du dd ds : ℤ) (c : Counters) : Counters :=
  ⟨c.upvotes + du, c.downvotes + dd, c.vote_score + ds⟩

theorem bumpC_zero (c : Counters) : bumpC 0 0 0 c = c := by
  simp [bumpC]

/-! ### Helper lemmas about the embedded database operations -/

theorem targetRows_setTargetRows (db : VoteDB) (tt : String)
    (rows : List (String × Counters)) :
    targetRows (setTargetRows db tt rows) tt = rows := by
  by_cases h : tt = "skill" <;> simp [targetRows, setTargetRows, h]

theorem find?_updateCounters (rows : List (String × Counters)) (tid : String)
    (du dd ds : ℤ) :
    (updateCounters rows tid du dd ds).find? (fun p => p.1 == tid) =
      (rows.find? (fun p => p.1 == tid)).map (fun p => (p.1, bumpC du dd ds p.2)) := by
  induction rows with
  | nil => rfl
  | cons p ps ih =>
    simp only [updateCounters, List.map_cons]
    simp only [updateCounters] at ih
    by_cases hb : (p.1 == tid) = true
    · rw [if_pos hb]
      simp [List.find?_cons, hb, bumpC]
    · rw [if_neg hb]
      rw [Bool.not_eq_true] at hb
      simpa [List.find?_cons, hb, bumpC] using ih

theorem lookupTarget_updTarget (db : VoteDB) (tt tid : String) (du dd ds : ℤ) :
    lookupTarget (updTarget db tt tid du dd ds) tt tid =
      (lookupTarget db tt tid).map (bumpC du dd ds) := by
  unfold lookupTarget updTarget
  rw [targetRows_setTargetRows, find?_updateCounters]
  cases (targetRows db tt).find? (fun p => p.1 == tid) <;> rfl

theorem lookupTarget_setVotes (db : VoteDB) (v : List VoteRow) (tt tid : String) :
    lookupTarget { db with votes := v } tt tid = lookupTarget db tt tid := by
  by_cases h : tt = "skill" <;> simp [lookupTarget, targetRows, h]

theorem get_votes_of_lookup_none (db : VoteDB) (tt tid : String)
    (h : lookupTarget db tt tid = none) : get_votes db tt tid = ⟨0, 0, 0⟩ := by
  unfold lookupTarget at h
  unfold get_votes
  cases hf : (targetRows db tt).find? (fun p => p.1 == tid) with
  | none => rfl
  | some p => rw [hf] at h; simp at h

theorem get_votes_of_lookup_some (db : VoteDB) (tt tid : String) (c : Counters)
    (h : lookupTarget db tt tid = some c) : get_votes db tt tid = c := by
  unfold lookupTarget at h
  unfold get_votes
  cases hf : (targetRows db tt).find? (fun p => p.1 == tid) with
  | none => rw [hf] at h; simp at h
  | some p => rw [hf] at h; simp at h; exact h

theorem map_bumpC_zero (o : Option Counters) : o.map (bumpC 0 0 0) = o := by
  cases o <;> simp [bumpC_zero]

/-- Every branch of the dispatch moves the target's counters by a delta
`(du, dd, ds)` with `ds = du - dd`. -/
theorem voteDispatch_targetDelta (db : VoteDB) (aid tt tid vt : String) :
    ∃ du dd ds : ℤ, ds = du - dd ∧
      lookupTarget (voteDispatch db aid tt tid vt).1 tt tid =
        (lookupTarget db tt tid).map (bumpC du dd ds) := by
  unfold voteDispatch
  by_cases hc : vt = "cancel"
  · rw [if_pos hc]
    cases hex : fetchExistingVote db aid tt tid with
    | none => exact ⟨0, 0, 0, by ring, by simp [cancel_vote, map_bumpC_zero]⟩
    | some ex =>
      by_cases hu : ex.vote_type = "upvote"
      · exact ⟨-1, 0, -1, by ring, by
          simp [cancel_vote, hu, dbDeleteVote, lookupTarget_updTarget, lookupTarget_setVotes]⟩
      · exact ⟨0, -1, 1, by ring, by
          simp [cancel_vote, hu, dbDeleteVote, lookupTarget_updTarget, lookupTarget_setVotes]⟩
  · rw [if_neg hc]
    cases hex : fetchExistingVote db aid tt tid with
    | none =>
      by_cases hu : vt = "upvote"
      · exact ⟨1, 0, 1, by ring, by
          simp [new_vote, hu, dbInsertVote, lookupTarget_updTarget, lookupTarget_setVotes]⟩
      · exact ⟨0, 1, -1, by ring, by
          simp [new_vote, hu, dbInsertVote, lookupTarget_updTarget, lookupTarget_setVotes]⟩
    | some ex =>
      by_cases heq : ex.vote_type = vt
      · exact ⟨0, 0, 0, by ring, by simp [change_vote, heq, map_bumpC_zero]⟩
      · by_cases hud : ex.vote_type = "upvote" ∧ vt = "downvote"
        · exact ⟨-1, 1, -2, by ring, by
            simp [change_vote, heq, hud.1, hud.2, dbUpdateVote, lookupTarget_updTarget,
              lookupTarget_setVotes]⟩
        · have hb : (decide (ex.vote_type = "upvote") && decide (vt = "downvote")) = false := by
            rcases Decidable.not_and_iff_or_not.mp hud with h | h <;> simp [h]
          exact ⟨1, -1, 2, by ring, by
            simp [change_vote, heq, hb, dbUpdateVote, lookupTarget_updTarget, lookupTarget_setVotes]⟩

/-- A completed `vote()` call moves the target's counters by a delta
`(du, dd, ds)` with `ds = du - dd` (possibly the zero delta). -/
theorem vote_ok_targetDelta (db db' : VoteDB) (tt tid did vt : String) (r : VoteResult)
    (h : vote db tt tid did vt = .ok (db', r)) :
    ∃ du dd ds : ℤ, ds = du - dd ∧
      lookupTarget db' tt tid = (lookupTarget db tt tid).map (bumpC du dd ds) := by
  unfold vote at h
  split at h
  · simp at h
  · split at h
    · simp at h
    · split at h
      · simp only [Except.ok.injEq, Prod.mk.injEq] at h
        refine ⟨0, 0, 0, by ring, ?_⟩
        rw [← h.1, map_bumpC_zero]
      · rename_i aid _
        split at h
        · simp only [Except.ok.injEq, Prod.mk.injEq] at h
          refine ⟨0, 0, 0, by ring, ?_⟩
          rw [← h.1, map_bumpC_zero]
        · simp only [Except.ok.injEq] at h
          have hdb : (voteDispatch db aid tt tid vt).1 = db' := by rw [h]
          rw [← hdb]
          exact voteDispatch_targetDelta db aid tt tid vt

/-- With valid inputs and a resolved, non-empty agent id, `vote` reduces to
the dispatch. -/
theorem vote_eq_dispatch (db : VoteDB) (tt tid did vt aid : String)
    (htt : tt = "skill" ∨ tt = "comment")
    (hvt : vt = "upvote" ∨ vt = "downvote" ∨ vt = "cancel")
    (hres : (db.agents.find? fun p => p.1 == did).map (·.2) = some aid)
    (haid : aid ≠ "") :
    vote db tt tid did vt = .ok (voteDispatch db aid tt tid vt) := by
  have h1 : (tt == "skill" || tt == "comment") = true := by
    rcases htt with h | h <;> simp [h]
  have h2 : (vt == "upvote" || vt == "downvote" || vt == "cancel") = true := by
    rcases hvt with h | h | h <;> simp [h]
  unfold vote
  rw [hres, h1, h2]
  simp [haid]

theorem votes_updTarget (db : VoteDB) (tt tid : String) (du dd ds : ℤ) :
    (updTarget db tt tid du dd ds).votes = db.votes := by
  by_cases h : tt = "skill" <;> simp [updTarget, setTargetRows, h]

theorem find?_append_none {α : Type} (p : α → Bool) (l1 l2 : List α)
    (h : l1.find? p = none) : (l1 ++ l2).find? p = l2.find? p := by
  induction l1 with
  | nil => rfl
  | cons a as ih =>
    by_cases hb : p a = true
    · simp [List.find?_cons, hb] at h
    · rw [Bool.not_eq_true] at hb
      simp only [List.find?_cons, hb] at h ⊢
      simp only [List.cons_append, List.find?_cons, hb]
      exact ih h

theorem find?_mapVote (votes : List VoteRow) (aid tt tid nvt : String) :
    (votes.map fun r =>
        if voteKeyMatches r aid tt tid then { r with vote_type := nvt } else r).find?
      (fun r => voteKeyMatches r aid tt tid) =
      (votes.find? (fun r => voteKeyMatches r aid tt tid)).map
        (fun r => { r with vote_type := nvt }) := by
  induction votes with
  | nil => rfl
  | cons r rs ih =>
    by_cases hb : (voteKeyMatches r aid tt tid) = true
    · have hb2 : voteKeyMatches { r with vote_type := nvt } aid tt tid = true := by
        simpa [voteKeyMatches] using hb
      rw [List.map_cons, if_pos hb]
      simp [List.find?_cons, hb, hb2]
    · rw [List.map_cons, if_neg hb]
      rw [Bool.not_eq_true] at hb
      simpa [List.find?_cons, hb] using ih

theorem find?_filter_not {α : Type} (p : α → Bool) (l : List α) :
    (l.filter fun a => !(p a)).find? p = none := by
  induction l with
  | nil => rfl
  | cons a as ih =>
    by_cases hb : p a = true
    · simp [List.filter_cons, hb, ih]
    · rw [Bool.not_eq_true] at hb
      simp [List.filter_cons, hb, List.find?_cons, ih]

theorem lookupTarget_dbInsertVote (db : VoteDB) (aid tt tid vt tt2 tid2 : String) :
    lookupTarget (dbInsertVote db aid tt tid vt) tt2 tid2 = lookupTarget db tt2 tid2 :=
  lookupTarget_setVotes db _ tt2 tid2

theorem lookupTarget_dbUpdateVote (db : VoteDB) (aid tt tid nvt tt2 tid2 : String) :
    lookupTarget (dbUpdateVote db aid tt tid nvt) tt2 tid2 = lookupTarget db tt2 tid2 :=
  lookupTarget_setVotes db _ tt2 tid2

theorem lookupTarget_dbDeleteVote (db : VoteDB) (aid tt tid tt2 tid2 : String) :
    lookupTarget (dbDeleteVote db aid tt tid) tt2 tid2 = lookupTarget db tt2 tid2 :=
  lookupTarget_setVotes db _ tt2 tid2

theorem fetch_dbInsertVote (db : VoteDB) (aid tt tid vt : String)
    (hex : fetchExistingVote db aid tt tid = none) :
    fetchExistingVote (dbInsertVote db aid tt tid vt) aid tt tid =
      some ⟨aid, tt, tid, vt⟩ := by
  show (db.votes ++ [(⟨aid, tt, tid, vt⟩ : VoteRow)]).find?
      (fun r => voteKeyMatches r aid tt tid) = _
  rw [find?_append_none _ _ _ hex]
  simp [List.find?_cons, voteKeyMatches]

theorem fetch_dbUpdateVote (db : VoteDB) (aid tt tid nvt : String) :
    fetchExistingVote (dbUpdateVote db aid tt tid nvt) aid tt tid =
      (fetchExistingVote db aid tt tid).map (fun r => { r with vote_type := nvt }) :=
  find?_mapVote db.votes aid tt tid nvt

theorem fetch_dbDeleteVote (db : VoteDB) (aid tt tid : String) :
    fetchExistingVote (dbDeleteVote db aid tt tid) aid tt tid = none :=
  find?_filter_not _ db.votes

theorem votes_updTarget' (db : VoteDB) (tt tid : String) (du dd ds : ℤ)
    (aid tt2 tid2 : String) :
    ledgerState (updTarget db tt tid du dd ds) aid tt2 tid2 =
      ledgerState db aid tt2 tid2 := by
  unfold ledgerState fetchExistingVote
  rw [votes_updTarget]

/-- Claim C1: for every target that exists in storage, every completed
`vote()` operation (any action, any prior vote state) preserves the invariant
`vote_score = upvotes - downvotes` on that target's counters. -/
theorem vote_preserves_score_invariant (db db' : VoteDB) (tt tid did vt : String)
    (r : VoteResult) (c c' : Counters)
    (hok : vote db tt tid did vt = .ok (db', r))
    (hbefore : lookupTarget db tt tid = some c)
    (hinv : c.vote_score = c.upvotes - c.downvotes)
    (hafter : lookupTarget db' tt tid = some c') :
    c'.vote_score = c'.upvotes - c'.downvotes := by
  obtain ⟨du, dd, ds, hds, hmap⟩ := vote_ok_targetDelta db db' tt tid did vt r hok
  rw [hafter, hbefore] at hmap
  simp only [Option.map_some', Option.some.injEq] at hmap
  rw [hmap]
  simp only [bumpC]
  omega

/-- A registered voter and one skill at counters (2, 1, 1). -/
def dbW1 : VoteDB := ⟨[("d1", "a1")], [], [("s1", ⟨2, 1, 1⟩)], []⟩

/-- State of `dbW1` after an upvote on the skill. -/
def dbW1u : VoteDB := voteStep dbW1 "skill" "s1" "d1" "upvote"

/-- Witness for C1 at a concrete input: after the upvote the counters are
(3, 1, 2) and the invariant holds. -/
theorem vote_preserves_score_invariant_witness :
    lookupTarget dbW1u "skill" "s1" = some ⟨3, 1, 2⟩ ∧
      (⟨3, 1, 2⟩ : Counters).vote_score =
        (⟨3, 1, 2⟩ : Counters).upvotes - (⟨3, 1, 2⟩ : Counters).downvotes :=
  ⟨by decide, vote_preserves_score_invariant dbW1 dbW1u "skill" "s1" "d1" "upvote"
    ⟨true, "Successfully upvoted", 3, 1, 2⟩ ⟨2, 1, 1⟩ ⟨3, 1, 2⟩
    (by decide) (by decide) (by decide) (by decide)⟩


/-- Claim C2: for every existing target and resolvable identity, `vote()`
applies exactly the counter deltas of the spec's nine-row transition table
(`specDelta`), moves the ledger to the table's target state (`specNext`),
and reports the no-op rows as already voted / no vote to cancel. -/
theorem vote_matches_spec_table (db : VoteDB) (tt tid did vt aid : String)
    (c : Counters) (s : SpecVoteState)
    (htt : tt = "skill" ∨ tt = "comment")
    (hvt : vt = "upvote" ∨ vt = "downvote" ∨ vt = "cancel")
    (hres : (db.agents.find? fun p => p.1 == did).map (·.2) = some aid)
    (haid : aid ≠ "")
    (hwf : ∀ r ∈ db.votes, r.vote_type = "upvote" ∨ r.vote_type = "downvote")
    (htarget : lookupTarget db tt tid = some c)
    (hs : ledgerState db aid tt tid = s) :
    ∃ db' res, vote db tt tid did vt = .ok (db', res) ∧
      res.success = true ∧
      lookupTarget db' tt tid =
        some (bumpC (specDelta s vt).1 (specDelta s vt).2.1 (specDelta s vt).2.2 c) ∧
      ledgerState db' aid tt tid = specNext s vt ∧
      (s = .upvoted ∧ vt = "upvote" → res.message = "Already upvoted") ∧
      (s = .downvoted ∧ vt = "downvote" → res.message = "Already downvoted") ∧
      (s = .noVote ∧ vt = "cancel" → res.message = "No vote to cancel") := by
  refine ⟨(voteDispatch db aid tt tid vt).1, (voteDispatch db aid tt tid vt).2,
    vote_eq_dispatch db tt tid did vt aid htt hvt hres haid, ?_⟩
  rcases hvt with hv | hv | hv <;> subst hv
  · cases hex : fetchExistingVote db aid tt tid with
    | none =>
      have hs0 : s = .noVote := by rw [← hs]; simp [ledgerState, hex]
      subst hs0
      have hd : voteDispatch db aid tt tid "upvote" =
          (updTarget (dbInsertVote db aid tt tid "upvote") tt tid 1 0 1,
            mkResult true "Successfully upvoted"
              (get_votes (updTarget (dbInsertVote db aid tt tid "upvote") tt tid 1 0 1)
                tt tid)) := by
        simp [voteDispatch, hex, new_vote]
      rw [hd]
      refine ⟨rfl, ?_, ?_, by simp, by simp, by simp⟩
      · rw [lookupTarget_updTarget, lookupTarget_dbInsertVote, htarget]
        simp [specDelta, bumpC]
      · rw [votes_updTarget']
        simp [ledgerState, fetch_dbInsertVote db aid tt tid "upvote" hex, specNext]
    | some ex =>
      rcases hwf ex (List.mem_of_find?_eq_some hex) with het | het
      · have hs0 : s = .upvoted := by rw [← hs]; simp [ledgerState, hex, het]
        subst hs0
        have hd : voteDispatch db aid tt tid "upvote" =
            (db, mkResult true "Already upvoted" (get_votes db tt tid)) := by
          simp [voteDispatch, hex, change_vote, het]
        rw [hd]
        refine ⟨rfl, ?_, ?_, by intro h; rfl, by simp, by simp⟩
        · rw [htarget]; simp [specDelta, bumpC]
        · simp only [specNext]; exact hs
      · have hs0 : s = .downvoted := by rw [← hs]; simp [ledgerState, hex, het]
        subst hs0
        have hd : voteDispatch db aid tt tid "upvote" =
            (updTarget (dbUpdateVote db aid tt tid "upvote") tt tid 1 (-1) 2,
              mkResult true "Changed from downvote to upvote"
                (get_votes (updTarget (dbUpdateVote db aid tt tid "upvote") tt tid 1 (-1) 2)
                  tt tid)) := by
          simp [voteDispatch, hex, change_vote, het]
        rw [hd]
        refine ⟨rfl, ?_, ?_, by simp, by simp, by simp⟩
        · rw [lookupTarget_updTarget, lookupTarget_dbUpdateVote, htarget]
          simp [specDelta, bumpC]
        · rw [votes_updTarget']
          simp [ledgerState, fetch_dbUpdateVote, hex, specNext]
  · cases hex : fetchExistingVote db aid tt tid with
    | none =>
      have hs0 : s = .noVote := by rw [← hs]; simp [ledgerState, hex]
      subst hs0
      have hd : voteDispatch db aid tt tid "downvote" =
          (updTarget (dbInsertVote db aid tt tid "downvote") tt tid 0 1 (-1),
            mkResult true "Successfully downvoted"
              (get_votes (updTarget (dbInsertVote db aid tt tid "downvote") tt tid 0 1 (-1))
                tt tid)) := by
        simp [voteDispatch, hex, new_vote]
      rw [hd]
      refine ⟨rfl, ?_, ?_, by simp, by simp, by simp⟩
      · rw [lookupTarget_updTarget, lookupTarget_dbInsertVote, htarget]
        simp [specDelta, bumpC]
      · rw [votes_updTarget']
        simp [ledgerState, fetch_dbInsertVote db aid tt tid "downvote" hex, specNext]
    | some ex =>
      rcases hwf ex (List.mem_of_find?_eq_some hex) with het | het
      · have hs0 : s = .upvoted := by rw [← hs]; simp [ledgerState, hex, het]
        subst hs0
        have hd : voteDispatch db aid tt tid "downvote" =
            (updTarget (dbUpdateVote db aid tt tid "downvote") tt tid (-1) 1 (-2),
              mkResult true "Changed from upvote to downvote"
                (get_votes
                  (updTarget (dbUpdateVote db aid tt tid "downvote") tt tid (-1) 1 (-2))
                  tt tid)) := by
          simp [voteDispatch, hex, change_vote, het]
        rw [hd]
        refine ⟨rfl, ?_, ?_, by simp, by simp, by simp⟩
        · rw [lookupTarget_updTarget, lookupTarget_dbUpdateVote, htarget]
          simp [specDelta, bumpC]
        · rw [votes_updTarget']
          simp [ledgerState, fetch_dbUpdateVote, hex, specNext]
      · have hs0 : s = .downvoted := by rw [← hs]; simp [ledgerState, hex, het]
        subst hs0
        have hd : voteDispatch db aid tt tid "downvote" =
            (db, mkResult true "Already downvoted" (get_votes db tt tid)) := by
          simp [voteDispatch, hex, change_vote, het]
        rw [hd]
        refine ⟨rfl, ?_, ?_, by simp, by intro h; rfl, by simp⟩
        · rw [htarget]; simp [specDelta, bumpC]
        · simp only [specNext]; exact hs
  · cases hex : fetchExistingVote db aid tt tid with
    | none =>
      have hs0 : s = .noVote := by rw [← hs]; simp [ledgerState, hex]
      subst hs0
      have hd : voteDispatch db aid tt tid "cancel" =
          (db, mkResult true "No vote to cancel" (get_votes db tt tid)) := by
        simp [voteDispatch, hex, cancel_vote]
      rw [hd]
      refine ⟨rfl, ?_, ?_, by simp, by simp, by intro h; rfl⟩
      · rw [htarget]; simp [specDelta, bumpC]
      · simp only [specNext]; exact hs
    | some ex =>
      rcases hwf ex (List.mem_of_find?_eq_some hex) with het | het
      · have hs0 : s = .upvoted := by rw [← hs]; simp [ledgerState, hex, het]
        subst hs0
        have hd : voteDispatch db aid tt tid "cancel" =
            (updTarget (dbDeleteVote db aid tt tid) tt tid (-1) 0 (-1),
              mkResult true "Vote cancelled"
                (get_votes (updTarget (dbDeleteVote db aid tt tid) tt tid (-1) 0 (-1))
                  tt tid)) := by
          simp [voteDispatch, hex, cancel_vote, het]
        rw [hd]
        refine ⟨rfl, ?_, ?_, by simp, by simp, by simp⟩
        · rw [lookupTarget_updTarget, lookupTarget_dbDeleteVote, htarget]
          simp [specDelta, bumpC]
        · rw [votes_updTarget']
          simp [ledgerState, fetch_dbDeleteVote, specNext]
      · have hs0 : s = .downvoted := by rw [← hs]; simp [ledgerState, hex, het]
        subst hs0
        have hd : voteDispatch db aid tt tid "cancel" =
            (updTarget (dbDeleteVote db aid tt tid) tt tid 0 (-1) 1,
              mkResult true "Vote cancelled"
                (get_votes (updTarget (dbDeleteVote db aid tt tid) tt tid 0 (-1) 1)
                  tt tid)) := by
          simp [voteDispatch, hex, cancel_vote, het]
        rw [hd]
        refine ⟨rfl, ?_, ?_, by simp, by simp, by simp⟩
        · rw [lookupTarget_updTarget, lookupTarget_dbDeleteVote, htarget]
          simp [specDelta, bumpC]
        · rw [votes_updTarget']
          simp [ledgerState, fetch_dbDeleteVote, specNext]

/-- Witness for C2 at a concrete input: first upvote on a (2, 1, 1) target. -/
theorem vote_matches_spec_table_witness :
    ∃ db' res, vote dbW1 "skill" "s1" "d1" "upvote" = .ok (db', res) ∧
      res.success = true ∧
      lookupTarget db' "skill" "s1" =
        some (bumpC (specDelta .noVote "upvote").1 (specDelta .noVote "upvote").2.1
          (specDelta .noVote "upvote").2.2 ⟨2, 1, 1⟩) ∧
      ledgerState db' "a1" "skill" "s1" = specNext .noVote "upvote" ∧
      (SpecVoteState.noVote = .upvoted ∧ "upvote" = "upvote" →
        res.message = "Already upvoted") ∧
      (SpecVoteState.noVote = .downvoted ∧ "upvote" = "downvote" →
        res.message = "Already downvoted") ∧
      (SpecVoteState.noVote = .noVote ∧ "upvote" = "cancel" →
        res.message = "No vote to cancel") :=
  vote_matches_spec_table dbW1 "skill" "s1" "d1" "upvote" "a1" ⟨2, 1, 1⟩ .noVote
    (Or.inl rfl) (Or.inl rfl) (by decide) (by decide) (by decide) (by decide) (by decide)

/-- Every dispatch outcome reports success with the freshly read stats. -/
theorem voteDispatch_result_stats (db : VoteDB) (aid tt tid vt : String) :
    ∃ msg, (voteDispatch db aid tt tid vt).2 =
      mkResult true msg (get_votes (voteDispatch db aid tt tid vt).1 tt tid) := by
  simp only [voteDispatch]
  by_cases hc : vt = "cancel"
  · rw [if_pos hc]
    cases hex : fetchExistingVote db aid tt tid with
    | none => exact ⟨"No vote to cancel", rfl⟩
    | some ex => exact ⟨"Vote cancelled", rfl⟩
  · rw [if_neg hc]
    cases hex : fetchExistingVote db aid tt tid with
    | none => exact ⟨"Successfully " ++ vt ++ "d", rfl⟩
    | some ex =>
      by_cases heq : ex.vote_type = vt
      · refine ⟨"Already " ++ vt ++ "d", ?_⟩
        simp [change_vote, heq]
      · refine ⟨"Changed from " ++ ex.vote_type ++ " to " ++ vt, ?_⟩
        simp [change_vote, heq]

/-- Registered agent "d1" and an empty skills table. -/
def dbW7 : VoteDB := ⟨[("d1", "a1")], [], [], []⟩

/-- Counterexample to claim C7 as stated: voting on a target id absent from
storage with a resolvable identity completes with `success = true` and
all-zero counters — no explicit failure result is surfaced. -/
theorem vote_missing_target_reports_success :
    vote dbW7 "skill" "ghost" "d1" "upvote" =
      .ok (⟨[("d1", "a1")], [⟨"a1", "skill", "ghost", "upvote"⟩], [], []⟩,
        ⟨true, "Successfully upvoted", 0, 0, 0⟩) ∧
      (⟨true, "Successfully upvoted", 0, 0, 0⟩ : VoteResult).success = true := by
  decide

/-- Claim C7 (amended): a `vote()` call with valid inputs, a resolvable
identity and a `target_id` absent from storage completes with
`success = true` and all-zero counters; only an unresolvable identity yields
the `success = false` failure result. -/
theorem vote_missing_target_succeeds_with_zeros (db : VoteDB)
    (tt tid did vt aid : String)
    (htt : tt = "skill" ∨ tt = "comment")
    (hvt : vt = "upvote" ∨ vt = "downvote" ∨ vt = "cancel")
    (hres : (db.agents.find? fun p => p.1 == did).map (·.2) = some aid)
    (haid : aid ≠ "")
    (hmiss : lookupTarget db tt tid = none) :
    ∃ db' res, vote db tt tid did vt = .ok (db', res) ∧
      res.success = true ∧ res.upvotes = 0 ∧ res.downvotes = 0 ∧ res.vote_score = 0 := by
  obtain ⟨msg, hmsg⟩ := voteDispatch_result_stats db aid tt tid vt
  obtain ⟨du, dd, ds, _, hmap⟩ := voteDispatch_targetDelta db aid tt tid vt
  rw [hmiss] at hmap
  have hnone : lookupTarget (voteDispatch db aid tt tid vt).1 tt tid = none := by
    simpa using hmap
  refine ⟨(voteDispatch db aid tt tid vt).1, (voteDispatch db aid tt tid vt).2,
    vote_eq_dispatch db tt tid did vt aid htt hvt hres haid, ?_, ?_, ?_, ?_⟩ <;>
    rw [hmsg, get_votes_of_lookup_none _ _ _ hnone] <;> rfl

/-- Witness for the amended C7 at a concrete input. -/
theorem vote_missing_target_succeeds_with_zeros_witness :
    ∃ db' res, vote dbW7 "skill" "ghost" "d1" "cancel" = .ok (db', res) ∧
      res.success = true ∧ res.upvotes = 0 ∧ res.downvotes = 0 ∧ res.vote_score = 0 :=
  vote_missing_target_succeeds_with_zeros dbW7 "skill" "ghost" "d1" "cancel" "a1"
    (Or.inl rfl) (Or.inr (Or.inr rfl)) (by decide) (by decide) (by decide)

/-- Claim C8: an unresolvable identity soft-fails (`success = false`, no
exception, database returned unchanged); an invalid `target_type` or
`vote_type` raises a `ValueError` (modelled as `Except.error`) before any
state change. -/
theorem vote_validation_and_soft_fail :
    (∀ db tt tid did vt, (tt = "skill" ∨ tt = "comment") →
        (vt = "upvote" ∨ vt = "downvote" ∨ vt = "cancel") →
        (db.agents.find? fun p => p.1 == did) = none →
        vote db tt tid did vt = .ok (db, mkResult false "Agent not found" ⟨0, 0, 0⟩)) ∧
    (∀ db tt tid did vt, tt ≠ "skill" → tt ≠ "comment" →
        vote db tt tid did vt = .error ("Invalid target_type: " ++ tt)) ∧
    (∀ db tt tid did vt, (tt = "skill" ∨ tt = "comment") →
        vt ≠ "upvote" → vt ≠ "downvote" → vt ≠ "cancel" →
        vote db tt tid did vt = .error ("Invalid vote_type: " ++ vt)) := by
  refine ⟨?_, ?_, ?_⟩
  · intro db tt tid did vt htt hvt hnone
    have h1 : (tt == "skill" || tt == "comment") = true := by
      rcases htt with h | h <;> simp [h]
    have h2 : (vt == "upvote" || vt == "downvote" || vt == "cancel") = true := by
      rcases hvt with h | h | h <;> simp [h]
    unfold vote
    rw [hnone, h1, h2]
    rfl
  · intro db tt tid did vt h1 h2
    have hb : (tt == "skill" || tt == "comment") = false := by simp [h1, h2]
    unfold vote
    rw [hb]
    rfl
  · intro db tt tid did vt htt h1 h2 h3
    have ha : (tt == "skill" || tt == "comment") = true := by
      rcases htt with h | h <;> simp [h]
    have hb : (vt == "upvote" || vt == "downvote" || vt == "cancel") = false := by
      simp [h1, h2, h3]
    unfold vote
    rw [ha, hb]
    rfl

/-- Witness for C8 at concrete inputs: unknown caller, bad target type, bad
action. -/
theorem vote_validation_and_soft_fail_witness :
    vote dbW1 "skill" "s1" "nobody" "upvote" =
        .ok (dbW1, mkResult false "Agent not found" ⟨0, 0, 0⟩) ∧
      vote dbW1 "post" "s1" "d1" "upvote" = .error ("Invalid target_type: " ++ "post") ∧
      vote dbW1 "skill" "s1" "d1" "boost" = .error ("Invalid vote_type: " ++ "boost") :=
  ⟨vote_validation_and_soft_fail.1 dbW1 "skill" "s1" "nobody" "upvote" (Or.inl rfl)
      (Or.inl rfl) (by decide),
    vote_validation_and_soft_fail.2.1 dbW1 "post" "s1" "d1" "upvote" (by decide) (by decide),
    vote_validation_and_soft_fail.2.2 dbW1 "skill" "s1" "d1" "boost" (Or.inl rfl)
      (by decide) (by decide) (by decide)⟩

/-! ## Python decimal rounding

`round(x, k)` in Python rounds half to even on the decimal digit `k`. -/

/-- Round half to even to the nearest integer. -/
def roundHalfEven {α : Type} [LinearOrderedField α] [FloorRing α] (x : α) : ℤ :=
  if x - ⌊x⌋ < 1 / 2 then ⌊x⌋
  else if 1 / 2 < x - ⌊x⌋ then ⌊x⌋ + 1
  else if ⌊x⌋ % 2 = 0 then ⌊x⌋ else ⌊x⌋ + 1

/-- Python `round(x, 2)`. -/
def pyRound2 {α : Type} [LinearOrderedField α] [FloorRing α] (x : α) : α :=
  (roundHalfEven (x * 100) : ℤ) / 100

/-- Python `round(x, 4)`. -/
def pyRound4 {α : Type} [LinearOrderedField α] [FloorRing α] (x : α) : α :=
  (roundHalfEven (x * 10000) : ℤ) / 10000

/-! ## Review system (api/v2_server.py, submit_review)

File names are lists of characters; the three glob patterns of the handler
all have a single star, so a pattern is a (prefix, suffix) pair. -/

/-- Front match of a pattern fragment against a name. -/
def listLeads : List Char → List Char → Bool
  | [], _ => true
  | _ :: _, [] => false
  | a :: as, b :: bs => a == b && listLeads as bs

/-- Match of the glob `pre*suf` against `name`. -/
def globMatch (pre suf name : List Char) : Bool :=
  listLeads pre name && listLeads suf.reverse name.reverse &&
    decide (pre.length + suf.length ≤ name.length)

/-- A stored review JSON file (name, `st_mtime`, and the fields the handler
reads back: `rating`, `weight`; `reviewer_did` as written at creation). -/
structure RFile where
  name : List Char
  mtime : ℚ
  rating : ℚ
  weight : ℚ
  reviewer : Option (List Char)
deriving DecidableEq, Repr

/-- A stored usage JSON file. -/
structure UFile where
  name : List Char
  usage_count : ℤ
deriving DecidableEq, Repr

/-- The part of a skill JSON file the review flow touches. -/
structure SkillMeta where
  rating : ℚ
  reviews_count : ℕ
deriving DecidableEq, Repr

/-- The data directories seen by `submit_review`: `SKILLS_DIR` (keyed by
skill id), `REVIEWS_DIR` and `USAGE_DIR`. -/
structure Store where
  skills : List (List Char × SkillMeta)
  reviews : List RFile
  usage : List UFile
deriving DecidableEq, Repr

/-- The `HTTPException`s the handler can raise, in raise order. -/
inductive RevErr
  | skillNotFound
  | invalidRating
  | mustUseFirst
  | insufficientUsage
  | duplicateReview
deriving DecidableEq, Repr

/-- The success payload of the endpoint (`skill_rating.rating` is the
unrounded weighted average, as returned). -/
structure RevResult where
  review_name : List Char
  rating : ℚ
  weight : ℚ
  usage_count : ℤ
  skill_rating : ℚ
  reviews_count : ℕ
deriving DecidableEq, Repr

def jsonExt : List Char := ".json".toList

/-- `agent_did.replace(':', '_') if agent_did else 'anonymous'`. -/
def safeDid : Option (List Char) → List Char
  | none => "anonymous".toList
  | some d => d.map (fun c => if c = ':' then '_' else c)

/-- `f"review-{skill_id}-{safe_did}" + ".json"`. -/
def reviewFileName (skill_id safe : List Char) : List Char :=
  "review-".toList ++ skill_id ++ "-".toList ++ safe ++ jsonExt

def lookupSkill (st : Store) (skill_id : List Char) : Option SkillMeta :=
  (st.skills.find? (fun p => p.1 == skill_id)).map (·.2)

/-- `USAGE_DIR.glob(f"{skill_id}_{safe_did}_*.json")`. -/
def usageFilesFor (st : Store) (skill_id safe : List Char) : List UFile :=
  st.usage.filter (fun f =>
    globMatch (skill_id ++ "_".toList ++ safe ++ "_".toList) jsonExt f.name)

/-- Sum of `usage_count` over the glob-matched usage files of (skill, did). -/
def totalUsageOf (st : Store) (skill_id : List Char) (did : Option (List Char)) : ℤ :=
  ((usageFilesFor st skill_id (safeDid did)).map (·.usage_count)).sum

/-- `calculate_review_weight` of `submit_review` (`MIN_USAGE_FOR_REVIEW = 5`). -/
def calculate_review_weight (usage_count : ℤ) : ℚ :=
  if usage_count < 5 then 0
  else if usage_count < 20 then 1
  else if usage_count < 50 then 3 / 2
  else if usage_count < 100 then 2
  else 3

/-- Suffix of the burst glob `REVIEWS_DIR.glob(f"review-*_{safe_did}.json")`. -/
def burstGlobSuf (safe : List Char) : List Char := "_".toList ++ safe ++ jsonExt

/-- Stable insertion into a list sorted by `mtime` descending. -/
def insertDesc (f : RFile) : List RFile → List RFile
  | [] => [f]
  | g :: gs => if g.mtime < f.mtime then f :: g :: gs else g :: insertDesc f gs

/-- `sorted(files, key=st_mtime, reverse=True)` (stable). -/
def sortByMtimeDesc (l : List RFile) : List RFile :=
  l.foldl (fun acc f => insertDesc f acc) []

/-- `all((t[i] - t[i+1]) / 60 < 1.0 for consecutive i)`. -/
def burstDiffsLt1 : List ℚ → Bool
  | t0 :: t1 :: ts => ((t0 - t1) / 60 < 1) && burstDiffsLt1 (t1 :: ts)
  | _ => true

/-- Write the recomputed `rating` and `reviews_count` back into the skill
file. -/
def updateSkillMeta (skills : List (List Char × SkillMeta)) (skill_id : List Char)
    (rating : ℚ) (cnt : ℕ) : List (List Char × SkillMeta) :=
  skills.map fun p => if p.1 == skill_id then (p.1, ⟨rating, cnt⟩) else p

/-- The `submit_review` handler of `api/v2_server.py`, step by step:
skill existence, rating range, usage glob and 5-unit gate, trust weight,
duplicate check on the exact review file name, burst detection over the
burst glob, review creation, and weighted-average recomputation over the
aggregation glob `review-{skill_id}_*.json`. -/
def submit_review (st : Store) (now : ℚ) (skill_id : List Char)
    (agent_did : Option (List Char)) (rating : ℚ) :
    Except RevErr (Store × RevResult) :=
  match lookupSkill st skill_id with
  | none => .error .skillNotFound
  | some _ =>
    if ¬(0 ≤ rating ∧ rating ≤ 100) then .error .invalidRating
    else
      let safe := safeDid agent_did
      let usage_files := usageFilesFor st skill_id safe
      if usage_files = [] then .error .mustUseFirst
      else
        let total := (usage_files.map (·.usage_count)).sum
        if total < 5 then .error .insufficientUsage
        else
          let weight0 := calculate_review_weight total
          let rname := reviewFileName skill_id safe
          if st.reviews.any (fun f => f.name == rname) then .error .duplicateReview
          else
            let agent_reviews := st.reviews.filter
              (fun f => globMatch "review-".toList (burstGlobSuf safe) f.name)
            let weight :=
              if agent_reviews ≠ [] then
                let recent := (sortByMtimeDesc agent_reviews).take 5
                if 3 ≤ recent.length then
                  if burstDiffsLt1 ((recent.take 3).map (·.mtime)) then
                    weight0 * (1 / 10)
                  else weight0
                else weight0
              else weight0
            let reviews2 := st.reviews ++ [⟨rname, now, rating, weight, agent_did⟩]
            let all_reviews := reviews2.filter
              (fun f => globMatch ("review-".toList ++ skill_id ++ "_".toList)
                jsonExt f.name)
            let tws : ℚ := (all_reviews.map (fun f => f.rating * f.weight)).sum
            let tw : ℚ := (all_reviews.map (·.weight)).sum
            let avg : ℚ := if 0 < tw then tws / tw else 0
            let skills2 := updateSkillMeta st.skills skill_id (pyRound2 avg)
              all_reviews.length
            .ok (⟨skills2, reviews2, st.usage⟩,
              ⟨rname, rating, weight, total, avg, all_reviews.length⟩)

/-- The store after a `submit_review` call: an `HTTPException` leaves the
store untouched (every raise in the handler happens before the first file
write). -/
def runSubmit (st : Store) (now : ℚ) (skill_id : List Char)
    (agent_did : Option (List Char)) (rating : ℚ) : Store × Except RevErr RevResult :=
  match submit_review st now skill_id agent_did rating with
  | .ok (st2, r) => (st2, .ok r)
  | .error e => (st, .error e)

theorem find?_updateSkillMeta (skills : List (List Char × SkillMeta))
    (skill_id : List Char) (r : ℚ) (c : ℕ) :
    (updateSkillMeta skills skill_id r c).find? (fun p => p.1 == skill_id) =
      (skills.find? (fun p => p.1 == skill_id)).map (fun p => (p.1, ⟨r, c⟩)) := by
  induction skills with
  | nil => rfl
  | cons p ps ih =>
    simp only [updateSkillMeta, List.map_cons]
    simp only [updateSkillMeta] at ih
    by_cases hb : (p.1 == skill_id) = true
    · rw [if_pos hb]
      simp [List.find?_cons, hb]
    · rw [if_neg hb]
      rw [Bool.not_eq_true] at hb
      simpa [List.find?_cons, hb] using ih

theorem usageFiles_ne_nil_of_totalUsage (st : Store) (skill_id : List Char)
    (did : Option (List Char)) (h : totalUsageOf st skill_id did ≠ 0) :
    usageFilesFor st skill_id (safeDid did) ≠ [] := by
  intro he
  apply h
  unfold totalUsageOf
  rw [he]
  rfl

/-- Claim C6: the trust weight is determined by total usage alone, with the
table values at the band boundaries; a total usage of 4 is rejected by the
5-unit gate before the weight is used. -/
theorem review_weight_table :
    calculate_review_weight 5 = 1 ∧ calculate_review_weight 19 = 1 ∧
    calculate_review_weight 20 = 3 / 2 ∧ calculate_review_weight 49 = 3 / 2 ∧
    calculate_review_weight 50 = 2 ∧ calculate_review_weight 99 = 2 ∧
    calculate_review_weight 100 = 3 ∧
    ∀ (st : Store) (now rating : ℚ) (skill_id : List Char) (did : Option (List Char))
      (m : SkillMeta), lookupSkill st skill_id = some m →
      0 ≤ rating → rating ≤ 100 →
      totalUsageOf st skill_id did = 4 →
      submit_review st now skill_id did rating = .error .insufficientUsage := by
  refine ⟨rfl, rfl, rfl, rfl, rfl, rfl, rfl, ?_⟩
  intro st now rating skill_id did m hm h0 h100 h4
  have hne : usageFilesFor st skill_id (safeDid did) ≠ [] :=
    usageFiles_ne_nil_of_totalUsage st skill_id did (by rw [h4]; decide)
  unfold totalUsageOf at h4
  simp only [submit_review, hm]
  rw [if_neg (not_not_intro ⟨h0, h100⟩), if_neg hne, h4]
  rw [if_pos (by decide)]

/-- Witness for C6: the universal rejection clause applied at a concrete
store with total usage 4. -/
def stW6 : Store := ⟨[("beta".toList, ⟨0, 0⟩)], [], [⟨"beta_anonymous_t.json".toList, 4⟩]⟩

theorem review_weight_table_witness :
    calculate_review_weight 5 = 1 ∧
      submit_review stW6 0 "beta".toList none 50 = .error .insufficientUsage :=
  ⟨review_weight_table.1,
    review_weight_table.2.2.2.2.2.2.2 stW6 0 50 "beta".toList none ⟨0, 0⟩
      (by with_unfolding_all decide) (by norm_num) (by norm_num)
      (by with_unfolding_all decide)⟩

/-- Failing input for claim C3: one skill, anonymous reviewer with exactly
the minimum usage, empty review store. -/
def stC3 : Store :=
  ⟨[("alpha".toList, ⟨0, 0⟩)], [], [⟨"alpha_anonymous_t1.json".toList, 5⟩]⟩

/-- Claim C3 evaluated at the failing input: the review (rating 80,
weight 1.0) is accepted, yet the skill's stored rating and `reviews_count`
are set to 0 and 0 — not 80.0 and 1 — because the aggregation glob
`review-{skill_id}_*.json` does not match the saved file name
`review-{skill_id}-{safe_did}.json` (underscore versus hyphen). -/
theorem review_aggregation_glob_mismatch :
    submit_review stC3 0 "alpha".toList none 80 =
      .ok (⟨[("alpha".toList, ⟨0, 0⟩)],
        [⟨reviewFileName "alpha".toList ("anonymous".toList), 0, 80, 1, none⟩],
        stC3.usage⟩,
        ⟨reviewFileName "alpha".toList ("anonymous".toList), 80, 1, 5, 0, 0⟩) ∧
    globMatch ("review-".toList ++ "alpha".toList ++ "_".toList) jsonExt
      (reviewFileName "alpha".toList ("anonymous".toList)) = false := by
  with_unfolding_all decide

/-- Failing input for claim C4: three skills, each with minimum usage by the
same identity `d:1`. -/
def stB0 : Store :=
  ⟨[("s1".toList, ⟨0, 0⟩), ("s2".toList, ⟨0, 0⟩), ("s3".toList, ⟨0, 0⟩)], [],
   [⟨"s1_d_1_t.json".toList, 5⟩, ⟨"s2_d_1_t.json".toList, 5⟩,
    ⟨"s3_d_1_t.json".toList, 5⟩]⟩

def didB : Option (List Char) := some "d:1".toList

/-- Store after `d:1` reviews `s1` at t = 0 s and `s2` at t = 20 s. -/
def stB2 : Store :=
  (runSubmit (runSubmit stB0 0 "s1".toList didB 80).1 20 "s2".toList didB 80).1

/-- Claim C4 evaluated at the failing input: the third review, filed 40
seconds after the first, keeps the full nominal weight 1 instead of the
damped 1 × 0.1 — the burst glob `review-*_{safe_did}.json` cannot match any
file the handler writes (`review-{skill_id}-{safe_did}.json`), so the burst
branch is dead code (and it inspects only previously stored reviews, never
the one being submitted). -/
theorem burst_damping_dead_code :
    stB2.reviews.length = 2 ∧
    (submit_review stB2 40 "s3".toList didB 80).toOption.map (fun p => p.2.weight) =
      some 1 ∧
    calculate_review_weight 5 * (1 / 10) ≠ (1 : ℚ) ∧
    globMatch "review-".toList (burstGlobSuf ("d_1".toList))
      (reviewFileName "s1".toList ("d_1".toList)) = false := by
  with_unfolding_all decide

theorem lookupSkill_updateSkillMeta (skills : List (List Char × SkillMeta))
    (rv : List RFile) (us : List UFile) (sid : List Char) (r : ℚ) (c : ℕ) :
    lookupSkill (⟨updateSkillMeta skills sid r c, rv, us⟩ : Store) sid =
      ((skills.find? (fun q => q.1 == sid)).map (fun _ => (⟨r, c⟩ : SkillMeta))) := by
  unfold lookupSkill
  show ((updateSkillMeta skills sid r c).find? (fun q => q.1 == sid)).map (·.2) = _
  rw [find?_updateSkillMeta]
  cases skills.find? (fun q => q.1 == sid) <;> rfl

/-- A call whose usage gate passes and whose (identity, skill) review file
already exists fails with the duplicate error before any write. -/
theorem submit_review_duplicate (st : Store) (now : ℚ) (skill_id : List Char)
    (did : Option (List Char)) (rating : ℚ)
    (hm : lookupSkill st skill_id ≠ none)
    (h0 : 0 ≤ rating) (h100 : rating ≤ 100)
    (hu : usageFilesFor st skill_id (safeDid did) ≠ [])
    (ht : ¬ ((usageFilesFor st skill_id (safeDid did)).map (·.usage_count)).sum < 5)
    (hdup : (st.reviews.any
      (fun f => f.name == reviewFileName skill_id (safeDid did))) = true) :
    submit_review st now skill_id did rating = .error .duplicateReview := by
  cases hq : lookupSkill st skill_id with
  | none => exact absurd hq hm
  | some m =>
    simp only [submit_review, hq]
    rw [if_neg (not_not_intro ⟨h0, h100⟩), if_neg hu, if_neg ht, if_pos hdup]

/-- Claim C9: after a successful review by (identity, skill), a second
well-formed `submit_review` call for the same pair fails with the
duplicate-review error and leaves the store — stored review, skill rating
and `reviews_count` — exactly as it was. -/
theorem duplicate_review_rejected (st st2 : Store) (now now2 rating rating2 : ℚ)
    (skill_id : List Char) (did : Option (List Char)) (res : RevResult)
    (h1 : submit_review st now skill_id did rating = .ok (st2, res))
    (h0 : 0 ≤ rating2) (h100 : rating2 ≤ 100) :
    runSubmit st2 now2 skill_id did rating2 = (st2, .error .duplicateReview) := by
  have hrun : ∀ (S : Store), submit_review S now2 skill_id did rating2 =
      .error .duplicateReview →
      runSubmit S now2 skill_id did rating2 = (S, .error .duplicateReview) := by
    intro S h
    unfold runSubmit
    rw [h]
  simp only [submit_review] at h1
  cases hm : lookupSkill st skill_id with
  | none => rw [hm] at h1; simp at h1
  | some m =>
    rw [hm] at h1
    by_cases hr : ¬(0 ≤ rating ∧ rating ≤ 100)
    · rw [if_pos hr] at h1; simp at h1
    · rw [if_neg hr] at h1
      by_cases hu : usageFilesFor st skill_id (safeDid did) = []
      · rw [if_pos hu] at h1; simp at h1
      · rw [if_neg hu] at h1
        by_cases ht : ((usageFilesFor st skill_id (safeDid did)).map (·.usage_count)).sum < 5
        · rw [if_pos ht] at h1; simp at h1
        · rw [if_neg ht] at h1
          by_cases hd : (st.reviews.any
              (fun f => f.name == reviewFileName skill_id (safeDid did))) = true
          · rw [if_pos hd] at h1; simp at h1
          · rw [if_neg hd] at h1
            simp only [Except.ok.injEq, Prod.mk.injEq] at h1
            obtain ⟨hst2, hres⟩ := h1
            subst hst2
            refine hrun _ (submit_review_duplicate _ now2 skill_id did rating2 ?_
              h0 h100 ?_ ?_ ?_)
            · rw [lookupSkill_updateSkillMeta]
              unfold lookupSkill at hm
              cases hq : st.skills.find? (fun q => q.1 == skill_id) with
              | none => rw [hq] at hm; simp at hm
              | some p => simp
            · exact hu
            · exact ht
            · simp [List.any_append]

/-- The store after the first review of `stC3`. -/
def stC3b : Store := (runSubmit stC3 0 "alpha".toList none 80).1

/-- Witness for C9 at a concrete input: resubmitting after the accepted
review of `stC3` is rejected and the store is untouched. -/
theorem duplicate_review_rejected_witness :
    runSubmit stC3b 9 "alpha".toList none 60 = (stC3b, .error .duplicateReview) :=
  duplicate_review_rejected stC3 stC3b 0 9 80 60 "alpha".toList none
    ⟨reviewFileName "alpha".toList ("anonymous".toList), 80, 1, 5, 0, 0⟩
    (by with_unfolding_all decide) (by norm_num) (by norm_num)

/-- Claim C10: a `submit_review` call without the `X-Agent-DID` header never
fails with an identity-not-found error — the reviewer is keyed as the literal
identity `anonymous`, and whenever the skill exists, the rating is
well-formed, usage filed under `anonymous` for that skill meets the 5-unit
threshold, and no prior anonymous review exists, the call succeeds and stores
a review whose reviewer field is empty (`none`). -/
theorem anonymous_review_succeeds (st : Store) (now rating : ℚ) (skill_id : List Char)
    (m : SkillMeta)
    (hskill : lookupSkill st skill_id = some m)
    (h0 : 0 ≤ rating) (h100 : rating ≤ 100)
    (husage : 5 ≤ totalUsageOf st skill_id none)
    (hnodup : ∀ f ∈ st.reviews, f.name ≠ reviewFileName skill_id ("anonymous".toList)) :
    safeDid none = "anonymous".toList ∧
    ∃ st2 res w, submit_review st now skill_id none rating = .ok (st2, res) ∧
      st2.reviews = st.reviews ++
        [⟨reviewFileName skill_id ("anonymous".toList), now, rating, w, none⟩] := by
  refine ⟨rfl, ?_⟩
  have hne : usageFilesFor st skill_id (safeDid none) ≠ [] :=
    usageFiles_ne_nil_of_totalUsage st skill_id none
      (by intro h; rw [h] at husage; norm_num at husage)
  have hlt : ¬ ((usageFilesFor st skill_id (safeDid none)).map (·.usage_count)).sum < 5 := by
    intro h
    have h2 := husage
    unfold totalUsageOf at h2
    omega
  have hdup : (st.reviews.any
      (fun f => f.name == reviewFileName skill_id (safeDid none))) = false := by
    rw [List.any_eq_false]
    intro f hf
    simpa using hnodup f hf
  simp only [submit_review, hskill]
  rw [if_neg (not_not_intro ⟨h0, h100⟩), if_neg hne, if_neg hlt,
    if_neg (by simp [hdup])]
  exact ⟨_, _, _, rfl, rfl⟩

/-- Witness for C10 at a concrete input. -/
theorem anonymous_review_succeeds_witness :
    safeDid none = "anonymous".toList ∧
    ∃ st2 res w, submit_review stC3 5 "alpha".toList none 70 = .ok (st2, res) ∧
      st2.reviews = stC3.reviews ++
        [⟨reviewFileName "alpha".toList ("anonymous".toList), 5, 70, w, none⟩] :=
  anonymous_review_succeeds stC3 5 70 "alpha".toList ⟨0, 0⟩
    (by with_unfolding_all decide) (by norm_num) (by norm_num)
    (by with_unfolding_all decide) (by with_unfolding_all decide)

/-! ## Hot-ranking calculator (scripts/feed_algorithm.py) -/

theorem floor_le_roundHalfEven {α : Type} [LinearOrderedField α] [FloorRing α] (x : α) :
    ⌊x⌋ ≤ roundHalfEven x := by
  unfold roundHalfEven
  split_ifs <;> omega

theorem roundHalfEven_le_floor_add_one {α : Type} [LinearOrderedField α] [FloorRing α]
    (x : α) : roundHalfEven x ≤ ⌊x⌋ + 1 := by
  unfold roundHalfEven
  split_ifs <;> omega

theorem roundHalfEven_mono {α : Type} [LinearOrderedField α] [FloorRing α]
    {x y : α} (h : x ≤ y) : roundHalfEven x ≤ roundHalfEven y := by
  have hf : ⌊x⌋ ≤ ⌊y⌋ := Int.floor_le_floor h
  rcases eq_or_lt_of_le hf with heq | hlt
  · have hfr : x - (⌊y⌋ : α) ≤ y - (⌊y⌋ : α) := sub_le_sub_right h _
    unfold roundHalfEven
    rw [heq]
    split_ifs <;> first | omega | (exfalso; linarith)
  · have h1 := roundHalfEven_le_floor_add_one x
    have h2 := floor_le_roundHalfEven y
    omega

theorem pyRound4_mono {x y : ℝ} (h : x ≤ y) : pyRound4 x ≤ pyRound4 y := by
  unfold pyRound4
  have h1 : x * 10000 ≤ y * 10000 := by linarith
  have h2 : ((roundHalfEven (x * 10000) : ℤ) : ℝ) ≤ ((roundHalfEven (y * 10000) : ℤ) : ℝ) :=
    Int.cast_le.mpr (roundHalfEven_mono h1)
  have h3 : (0 : ℝ) < 10000 := by norm_num
  exact (div_le_div_iff_of_pos_right h3).mpr h2

/-- `FeedAlgorithm.calculate_hot_score`:
`round(log10(max(abs(upvotes - downvotes), 1)) + age / GRAVITY, 4)` with
`GRAVITY = 1.8`; `ageHours` stands for
`(datetime.now() - created_at).total_seconds() / 3600`. The float arithmetic
of the source is idealised over the real numbers; `round(x, 4)` is Python's
decimal round-half-to-even. -/
noncomputable def calculate_hot_score (upvotes downvotes : ℤ) (ageHours : ℝ) : ℝ :=
  pyRound4 (Real.logb 10 ((max |upvotes - downvotes| 1 : ℤ) : ℝ) + ageHours / 1.8)

/-- Counterexample to claim C5 as stated: two targets with identical vote
score 0 and ages 0 h and 0.0000018 h get the same hot score — the final
round to 4 decimals erases the age difference, so the older target's hot
score is not strictly larger. -/
theorem hot_score_strict_counterexample :
    (0 : ℝ) < 18 / 10000000 ∧
    calculate_hot_score 0 0 (18 / 10000000) = calculate_hot_score 0 0 0 := by
  refine ⟨by norm_num, ?_⟩
  have hf100 : ⌊(1 / 100 : ℝ)⌋ = 0 := by
    rw [Int.floor_eq_zero_iff, Set.mem_Ico]
    constructor <;> norm_num
  have hf0 : ⌊(0 : ℝ)⌋ = 0 := by norm_num
  have hr100 : roundHalfEven ((1 / 100 : ℝ)) = 0 := by
    unfold roundHalfEven
    rw [hf100]
    norm_num
  have hr0 : roundHalfEven ((0 : ℝ)) = 0 := by
    unfold roundHalfEven
    rw [hf0]
    norm_num
  unfold calculate_hot_score
  have horder : Real.logb 10 ((max |(0 : ℤ) - 0| 1 : ℤ) : ℝ) = 0 := by
    norm_num [Real.logb_one]
  rw [horder]
  rw [show (0 : ℝ) + (18 / 10000000) / 1.8 = 1 / 1000000 by norm_num]
  rw [show (0 : ℝ) + 0 / 1.8 = 0 by norm_num]
  unfold pyRound4
  rw [show (1 / 1000000 : ℝ) * 10000 = 1 / 100 by norm_num]
  rw [show (0 : ℝ) * 10000 = 0 by norm_num]
  rw [hr100, hr0]

/-- Claim C5 (amended): the hot score is
`round(log10(max(|upvotes − downvotes|, 1)) + age_hours / 1.8, 4)`; for two
targets with identical vote score, larger age gives a greater-or-equal
(not always strictly larger) rounded hot score, and before the final
round-to-4-decimals the difference equals exactly `(age2 − age1) / 1.8`. -/
theorem hot_score_age_monotonicity (u d : ℤ) (a1 a2 : ℝ) (h : a1 < a2) :
    calculate_hot_score u d a1 ≤ calculate_hot_score u d a2 ∧
    (Real.logb 10 ((max |u - d| 1 : ℤ) : ℝ) + a2 / 1.8) -
      (Real.logb 10 ((max |u - d| 1 : ℤ) : ℝ) + a1 / 1.8) = (a2 - a1) / 1.8 := by
  constructor
  · unfold calculate_hot_score
    apply pyRound4_mono
    have h18 : (0 : ℝ) < 1.8 := by norm_num
    have := (div_le_div_iff_of_pos_right h18).mpr h.le
    linarith
  · ring

/-- Witness for the amended C5 at a concrete input. -/
theorem hot_score_age_monotonicity_witness :
    calculate_hot_score 0 0 0 ≤ calculate_hot_score 0 0 1.8 ∧
    (Real.logb 10 ((max |(0 : ℤ) - 0| 1 : ℤ) : ℝ) + 1.8 / 1.8) -
      (Real.logb 10 ((max |(0 : ℤ) - 0| 1 : ℤ) : ℝ) + 0 / 1.8) = (1.8 - 0) / 1.8 :=
  hot_score_age_monotonicity 0 0 0 1.8 (by norm_num)
